import Mathlib

/-!
Verification development for the `tom_education` asynchronous pipeline
framework.  The definitions below are shallow embeddings of the Python
source: pure functions become Lean functions, ORM persistence becomes
explicit state passing over record structures, Python exceptions become
an explicit exception type threaded through `Except` / `Option` results,
and external collaborators (the FITS reader, the ISO date parser, the
byte store behind `Path.read_bytes`) are passed in as function
parameters, matching the specification's decision to treat them as pure
external interfaces.

Sources embedded:
  * `tom_education/models.py` (the monolithic-era `AsyncProcess` with
    `clean`/`save`, cited by the claims for the terminal-timestamp
    invariant);
  * `tom_education/utils.py` (`assert_valid_suffix`);
  * `tom_education/models/pipelines.py` (`PipelineProcess.run`,
    `update_status`, `validate_flags`, `PipelineOutput`);
  * `tom_education/models/timelapse.py` (`TimelapseDataProduct.clean`,
    `write`, `_write`, `sorted_frames`, `TimelapseProcess.run`);
  * `tom_education/tasks.py` (`run_process`).

The package module `tom_education/models/async_process.py` is not
present in the source tree (only its callers `pipelines.py`,
`timelapse.py`, `autovar.py` and its tests are); where its behaviour is
needed it is modelled from the spec and marked as such in the doc
comment.
-/

/-! ## Statuses and exceptions -/

def ASYNC_STATUS_PENDING : String := "pending"

def ASYNC_STATUS_CREATED : String := "created"

def ASYNC_STATUS_FAILED : String := "failed"

def ASYNC_TERMINAL_STATES : List String := [ASYNC_STATUS_CREATED, ASYNC_STATUS_FAILED]

/-- The Python exception taxonomy that the embedded code raises and
catches: Django `ValidationError`, the project's `AsyncError`
(the spec's `ProcessError`), `AssertionError`, `ValueError`,
`DateFieldNotFoundError`, and a catch-all for any other exception. -/
inductive PyExc where
  | validationError (msg : String)
  | asyncError (msg : String)
  | assertionError (msg : String)
  | valueError (msg : String)
  | dateFieldNotFoundError (msg : String)
  | otherExc (msg : String)
deriving DecidableEq, Repr

/-! ## `AsyncProcess` from `tom_education/models.py`

Fields and methods of the monolithic-era `AsyncProcess` model
(models.py lines 201-224).  `created` (the creation timestamp) and the
ORM primary key are omitted: no claim mentions them.  Timestamps are
abstracted as `Nat`; the current wall-clock time (`datetime.now()`) is
passed explicitly as `now`. -/

structure AsyncProcess where
  identifier : String
  status : String := ASYNC_STATUS_PENDING
  terminal_timestamp : Option Nat := none
  failure_message : String := ""
  target : Option Nat := none
deriving DecidableEq, Repr

/-- The `status` field's `choices` (models.py `STATUS_CHOICES`), which
Django's `full_clean` validates against when the model is saved. -/
def STATUS_CHOICES : List String :=
  [ASYNC_STATUS_PENDING, ASYNC_STATUS_CREATED, ASYNC_STATUS_FAILED]

/-- `AsyncProcess.clean` (models.py lines 218-220): whenever the status
is terminal, stamp `terminal_timestamp` with the current time. -/
def AsyncProcess.clean (now : Nat) (p : AsyncProcess) : AsyncProcess :=
  if p.status ∈ ASYNC_TERMINAL_STATES then
    { p with terminal_timestamp := some now }
  else p

/-- `AsyncProcess.save` (models.py lines 222-224): `save` calls
`full_clean`, which runs field validation (the `status` value must be
one of `STATUS_CHOICES`) and the model's `clean` hook, then persists.
`.ok` carries the persisted record; `.error` is the `ValidationError`
raised when the status is not a valid choice (the record is not
persisted in that case). -/
def AsyncProcess.save (now : Nat) (p : AsyncProcess) : Except PyExc AsyncProcess :=
  let cleaned := AsyncProcess.clean now p
  if p.status ∈ STATUS_CHOICES then .ok cleaned
  else .error (.validationError ("Value " ++ p.status ++ " is not a valid choice."))

/-! ## C1 theorems -/

/-- C1 (counterexample): the claim states that once `terminal_timestamp`
is set it is never modified by any subsequent save.  On the code this is
false: a process already in the terminal state `created` with
`terminal_timestamp = some 5` is saved at time `7`, and the persisted
record's `terminal_timestamp` has been overwritten to `some 7`
(`clean` restamps unconditionally whenever the status is terminal). -/
theorem C1_counterexample :
    (AsyncProcess.save 7
        { identifier := "p", status := ASYNC_STATUS_CREATED,
          terminal_timestamp := some 5 }).toOption.map
      (fun q => q.terminal_timestamp) = some (some 7) ∧
    some (7 : Nat) ≠ some 5 := by
  decide

/-- C1 (amended): `terminal_timestamp` is `None` until the status first
becomes `created` or `failed` (saves in a non-terminal status leave it
unchanged), and every successful save whose status is terminal stamps it
with the current time — overwriting any previously stamped value rather
than preserving it. -/
theorem C1_amended (now : Nat) (p q : AsyncProcess)
    (h : AsyncProcess.save now p = .ok q) :
    (p.status ∈ ASYNC_TERMINAL_STATES → q.terminal_timestamp = some now) ∧
    (p.status ∉ ASYNC_TERMINAL_STATES → q.terminal_timestamp = p.terminal_timestamp) := by
  simp only [AsyncProcess.save, AsyncProcess.clean] at h
  by_cases hc : p.status ∈ STATUS_CHOICES
  · by_cases ht : p.status ∈ ASYNC_TERMINAL_STATES
    · simp only [if_pos hc, if_pos ht, Except.ok.injEq] at h
      subst h
      exact ⟨fun _ => rfl, fun hn => absurd ht hn⟩
    · simp only [if_pos hc, if_neg ht, Except.ok.injEq] at h
      subst h
      exact ⟨fun hp => absurd hp ht, fun _ => rfl⟩
  · simp only [if_neg hc] at h
    cases h

/-- C1 (witness): the amended theorem applied at a concrete input — a
pending process saved while in the `failed` status at time `3` gets
`terminal_timestamp = some 3`. -/
theorem C1_amended_witness :
    AsyncProcess.save 3
        { identifier := "p", status := ASYNC_STATUS_FAILED } =
      .ok { identifier := "p", status := ASYNC_STATUS_FAILED,
            terminal_timestamp := some 3 } ∧
    ({ identifier := "p", status := ASYNC_STATUS_FAILED,
       terminal_timestamp := some 3 } : AsyncProcess).terminal_timestamp = some 3 := by
  refine ⟨rfl, ?_⟩
  exact (C1_amended 3
    { identifier := "p", status := ASYNC_STATUS_FAILED }
    { identifier := "p", status := ASYNC_STATUS_FAILED,
      terminal_timestamp := some 3 } rfl).1 (by decide)

/-! ## Pipeline data model (`tom_education/models/pipelines.py`)

`DataProduct`, `ReducedDatum` and `DataProductGroup` are the external
persistence entities (spec §6); only the fields the pipeline code reads
or writes are modelled.  File contents behind `Path.read_bytes` /
`Path.read_text` are supplied by a pure `read` function parameter. -/

structure DataProduct where
  product_id : String
  target : Option Nat := none
  tag : String := ""
  dataName : String := ""
  dataContent : String := ""
deriving DecidableEq, Repr

structure ReducedDatum where
  target : Nat
  data_type : String
  source_name : String
  timestamp : Nat
  value : String
deriving DecidableEq, Repr

structure DataProductGroup where
  name : String
  members : List String
deriving DecidableEq, Repr

/-- The `output_type` tag of a `PipelineOutput`: the source compares it
against the `DataProduct` and `ReducedDatum` classes; anything else is
the invalid case (`other` carries the string rendering of the type). -/
inductive OutputType where
  | dataProduct
  | reducedDatum
  | other (typeName : String)
deriving DecidableEq, Repr

/-- `PipelineOutput` (pipelines.py line 26): `namedtuple` with fields
`path`, `output_type` and an optional `tag` defaulting to `''`. -/
structure PipelineOutput where
  path : String
  output_type : OutputType
  tag : String := ""
deriving DecidableEq, Repr

/-- `os.path.basename` / `Path.name`: the final path component (the
characters after the last slash). -/
def baseName (path : String) : String :=
  String.mk ((path.data.reverse.takeWhile (fun c => c ≠ '/')).reverse)

/-- `assert_valid_suffix` (utils.py): raises `AssertionError` unless the
filename ends with one of the allowed suffixes; the message names the
file and the comma-joined allowed list. -/
def assert_valid_suffix (filename : String) (allowed_suffixes : List String) :
    Except PyExc Unit :=
  if allowed_suffixes.any (fun suffix => suffix.data.isSuffixOf filename.data) then
    .ok ()
  else
    .error (.assertionError
      ("File \x27" ++ filename ++ "\x27 does not end an allowed filename suffix (" ++
        String.intercalate ", " allowed_suffixes ++ ")"))

/-- `PipelineProcess` (pipelines.py lines 30-38) together with the
`AsyncProcess` base fields it inherits.  The `group` foreign key is
modelled by the group's name. -/
structure PipelineProcess where
  identifier : String
  status : String := ASYNC_STATUS_PENDING
  terminal_timestamp : Option Nat := none
  failure_message : String := ""
  target : Option Nat := none
  input_files : List DataProduct := []
  group : Option String := none
  logs : String := ""
deriving DecidableEq, Repr

/-- Modelled from the spec: the `AsyncProcess` persistence that
`PipelineProcess` inherits lives in `tom_education/models/async_process.py`,
which is not under `src/` (only its callers `pipelines.py` / `autovar.py`
and its tests are present).  Spec §4.2: persisting any status change
that lands in `created` or `failed` atomically also stamps
`terminal_timestamp` if not already set; any status value (including
transient free-text labels) persists. -/
def PipelineProcess.save (now : Nat) (p : PipelineProcess) : PipelineProcess :=
  if p.status ∈ ASYNC_TERMINAL_STATES ∧ p.terminal_timestamp = none then
    { p with terminal_timestamp := some now }
  else p

/-- `save` followed by the write to the persistence store: returns the
in-memory record (which `save` leaves identical to the stored one) and
the store with the new row appended. -/
def PipelineProcess.saveTo (now : Nat) (p : PipelineProcess)
    (db : List PipelineProcess) : PipelineProcess × List PipelineProcess :=
  let q := PipelineProcess.save now p
  (q, db ++ [q])

/-- `PipelineProcess.update_status` (pipelines.py lines 106-110), the
part of the context manager that runs before the managed block: set the
status and save immediately, so the write is already in the store when
the block's body starts. -/
def PipelineProcess.update_status (now : Nat) (p : PipelineProcess)
    (status : String) (db : List PipelineProcess) :
    PipelineProcess × List PipelineProcess :=
  PipelineProcess.saveTo now { p with status := status } db

/-- The suffix-checking loop of `PipelineProcess.run` (pipelines.py
lines 46-52): for the first input failing `assert_valid_suffix`, the
`AssertionError` is re-raised as `AsyncError("Error running pipeline
{ex}")`. -/
def checkSuffixes (allowed : List String) : List DataProduct → Option String
  | [] => none
  | prod :: rest =>
    match assert_valid_suffix (baseName prod.dataName) allowed with
    | .error (.assertionError msg) => some ("Error running pipeline " ++ msg)
    | _ => checkSuffixes allowed rest

/-- The `if self.allowed_suffixes:` guard: `None` and the empty list are
both falsy in Python, so the check is skipped for either. -/
def suffixGuard (allowed_suffixes : Option (List String))
    (files : List DataProduct) : Option String :=
  match allowed_suffixes with
  | none => none
  | some allowed => if allowed.isEmpty then none else checkSuffixes allowed files

/-- The `output_type == DataProduct` branch of the output loop
(pipelines.py lines 70-73): create a data product owned by the target,
named `<identifier>_<basename>`, tagged, with the artifact's bytes. -/
def materialiseEntity (read : String → String) (procIdentifier : String)
    (target : Nat) (o : PipelineOutput) : DataProduct :=
  let identifier := procIdentifier ++ "_" ++ baseName o.path
  { product_id := identifier, target := some target, tag := o.tag,
    dataName := identifier, dataContent := read o.path }

/-- The `output_type == ReducedDatum` branch (pipelines.py lines 75-82):
create a time-series record typed by the tag, timestamped now, holding
the artifact's text. -/
def materialiseDatum (read : String → String) (now : Nat)
    (procIdentifier : String) (target : Nat) (o : PipelineOutput) : ReducedDatum :=
  let identifier := procIdentifier ++ "_" ++ baseName o.path
  { target := target, data_type := o.tag, source_name := identifier,
    timestamp := now, value := read o.path }

/-- The output loop of `PipelineProcess.run` (pipelines.py lines 62-85):
returns the data products and records created so far and, if a
descriptor had an invalid `output_type`, the `AsyncError` that aborted
the rest of the loop (earlier creations are kept — nothing is rolled
back). -/
def saveOutputs (read : String → String) (now : Nat) (procIdentifier : String)
    (target : Nat) :
    List PipelineOutput → List DataProduct × List ReducedDatum × Option PyExc
  | [] => ([], [], none)
  | output :: rest =>
    match output.output_type with
    | .dataProduct =>
      let result := saveOutputs read now procIdentifier target rest
      (materialiseEntity read procIdentifier target output :: result.1,
        result.2.1, result.2.2)
    | .reducedDatum =>
      let result := saveOutputs read now procIdentifier target rest
      (result.1, materialiseDatum read now procIdentifier target output :: result.2.1,
        result.2.2)
    | .other t =>
      ([], [], some (.asyncError ("Invalid output type \x27" ++ t ++ "\x27")))

/-- The observable outcome of one `PipelineProcess.run` invocation: the
final in-memory/persisted process record, the entities materialised into
the store, whether the temporary workspace was allocated and whether it
was released again, and the exception propagated out of `run` (if
any). -/
structure RunResult where
  process : PipelineProcess
  newDataProducts : List DataProduct := []
  newReducedDatums : List ReducedDatum := []
  newGroups : List DataProductGroup := []
  wsAllocated : Bool := false
  wsReleased : Bool := false
  error : Option PyExc := none
deriving DecidableEq, Repr

/-- `PipelineProcess.run` (pipelines.py lines 40-95).  The subclass's
`do_pipeline` is abstracted as its outcome `work` (a list of output
descriptors, or the exception it raised).  The `with
tempfile.TemporaryDirectory()` block is embedded with explicit
allocated/released flags: the context manager releases the directory on
every exit path, normal or exceptional. -/
def PipelineProcess.run (read : String → String) (now : Nat)
    (allowed_suffixes : Option (List String)) (p : PipelineProcess)
    (work : Except PyExc (List PipelineOutput)) : RunResult :=
  match p.target with
  | none => { process := p, error := some (.asyncError "Process must have an associated target") }
  | some target =>
    if p.input_files.isEmpty then
      { process := p, error := some (.asyncError "No input files to process") }
    else
      match suffixGuard allowed_suffixes p.input_files with
      | some msg => { process := p, error := some (.asyncError msg) }
      | none =>
        match work with
        | .error e =>
          { process := p, wsAllocated := true, wsReleased := true, error := some e }
        | .ok outputs =>
          match saveOutputs read now p.identifier target outputs with
          | (dps, rds, some e) =>
            { process := p, newDataProducts := dps, newReducedDatums := rds,
              wsAllocated := true, wsReleased := true, error := some e }
          | (dps, rds, none) =>
            let withGroup :=
              if dps.isEmpty then (p, ([] : List DataProductGroup))
              else
                let g : DataProductGroup :=
                  { name := p.identifier ++ "_outputs",
                    members := dps.map (fun dp => dp.product_id) }
                ({ p with group := some g.name }, [g])
            let finalp := PipelineProcess.save now
              { withGroup.1 with status := ASYNC_STATUS_CREATED }
            { process := finalp, newDataProducts := dps, newReducedDatums := rds,
              newGroups := withGroup.2, wsAllocated := true, wsReleased := true }

/-- `run_process` (tasks.py lines 76-98): call `run()`, catch
`AsyncError` and copy its message into `failure_message`, catch any
other exception and use the fixed generic message; in either case set
the status to `failed` and save.  On success the process is left as
`run()` saved it. -/
def run_process (now : Nat) (r : RunResult) : PipelineProcess :=
  match r.error with
  | none => r.process
  | some (.asyncError msg) =>
    PipelineProcess.save now
      { r.process with failure_message := msg, status := ASYNC_STATUS_FAILED }
  | some _ =>
    PipelineProcess.save now
      { r.process with
        failure_message := "An unexpected error occurred",
        status := ASYNC_STATUS_FAILED }

/-! ## Helper lemmas about the pipeline embedding -/

theorem PipelineProcess.save_status (now : Nat) (p : PipelineProcess) :
    (PipelineProcess.save now p).status = p.status := by
  unfold PipelineProcess.save
  split <;> rfl

theorem PipelineProcess.save_group (now : Nat) (p : PipelineProcess) :
    (PipelineProcess.save now p).group = p.group := by
  unfold PipelineProcess.save
  split <;> rfl

theorem PipelineProcess.save_failure_message (now : Nat) (p : PipelineProcess) :
    (PipelineProcess.save now p).failure_message = p.failure_message := by
  unfold PipelineProcess.save
  split <;> rfl

/-- Boolean test for the `output_type == DataProduct` branch. -/
def isEntityOutput (o : PipelineOutput) : Bool :=
  match o.output_type with
  | .dataProduct => true
  | _ => false

/-- Boolean test for the `output_type == ReducedDatum` branch. -/
def isDatumOutput (o : PipelineOutput) : Bool :=
  match o.output_type with
  | .reducedDatum => true
  | _ => false

/-- When no descriptor has an invalid type, the output loop materialises
exactly the entity descriptors (in order) and exactly the datum
descriptors (in order), and raises nothing. -/
theorem saveOutputs_no_other (read : String → String) (now : Nat)
    (ident : String) (target : Nat) :
    ∀ outs : List PipelineOutput,
    (∀ o ∈ outs, ∀ s, o.output_type ≠ OutputType.other s) →
    saveOutputs read now ident target outs =
      ((outs.filter isEntityOutput).map (materialiseEntity read ident target),
        (outs.filter isDatumOutput).map (materialiseDatum read now ident target),
        none)
  | [], _ => rfl
  | o :: rest, h => by
    have hrest := saveOutputs_no_other read now ident target rest
      (fun x hx => h x (List.mem_cons_of_mem _ hx))
    cases ho : o.output_type with
    | dataProduct =>
      simp [saveOutputs, ho, hrest, isEntityOutput, isDatumOutput, List.filter_cons]
    | reducedDatum =>
      simp [saveOutputs, ho, hrest, isEntityOutput, isDatumOutput, List.filter_cons]
    | other s => exact absurd ho (h o (List.mem_cons_self _ _) s)

/-- An invalid descriptor after a prefix of valid ones: the loop keeps
the prefix's materialisations and aborts with the `AsyncError` naming
the invalid type; nothing after the invalid descriptor is processed. -/
theorem saveOutputs_invalid (read : String → String) (now : Nat)
    (ident : String) (target : Nat) (badO : PipelineOutput) (rest : List PipelineOutput)
    (tname : String) (hbad : badO.output_type = OutputType.other tname) :
    ∀ pre : List PipelineOutput,
    (∀ o ∈ pre, ∀ s, o.output_type ≠ OutputType.other s) →
    saveOutputs read now ident target (pre ++ badO :: rest) =
      ((pre.filter isEntityOutput).map (materialiseEntity read ident target),
        (pre.filter isDatumOutput).map (materialiseDatum read now ident target),
        some (.asyncError ("Invalid output type \x27" ++ tname ++ "\x27")))
  | [], _ => by simp [saveOutputs, hbad]
  | o :: pre, h => by
    have hpre := saveOutputs_invalid read now ident target badO rest tname hbad pre
      (fun x hx => h x (List.mem_cons_of_mem _ hx))
    cases ho : o.output_type with
    | dataProduct =>
      simp [saveOutputs, ho, hpre, isEntityOutput, isDatumOutput, List.filter_cons]
    | reducedDatum =>
      simp [saveOutputs, ho, hpre, isEntityOutput, isDatumOutput, List.filter_cons]
    | other s => exact absurd ho (h o (List.mem_cons_self _ _) s)

/-- `checkSuffixes` on a list whose prefix all pass the suffix check and
whose next element fails it: the first failure is reported, with the
`AssertionError` message (naming the file and the allowed list) wrapped
in the pipeline error prefix. -/
theorem checkSuffixes_first_violation (allowed : List String) (f : DataProduct)
    (rest : List DataProduct)
    (hv : (allowed.any fun s => s.data.isSuffixOf (baseName f.dataName).data) = false) :
    ∀ goodpre : List DataProduct,
    (∀ g ∈ goodpre, (allowed.any fun s => s.data.isSuffixOf (baseName g.dataName).data) = true) →
    checkSuffixes allowed (goodpre ++ f :: rest) =
      some ("Error running pipeline " ++
        ("File \x27" ++ baseName f.dataName ++
          "\x27 does not end an allowed filename suffix (" ++
          String.intercalate ", " allowed ++ ")"))
  | [], _ => by
    simp only [List.nil_append, checkSuffixes, assert_valid_suffix, hv]
    rfl
  | g :: goodpre, h => by
    have hg := h g (List.mem_cons_self _ _)
    have hrec := checkSuffixes_first_violation allowed f rest hv goodpre
      (fun x hx => h x (List.mem_cons_of_mem _ hx))
    simp only [List.cons_append, checkSuffixes, assert_valid_suffix, hg]
    exact hrec

/-! ## C5: precondition checks of `PipelineProcess.run` -/

/-- C5: the precondition checks run in order — missing target first,
then empty inputs, then (when `allowed_suffixes` is declared and
non-empty) the per-file suffix check; each failure raises `AsyncError`
with the run result showing no side effects at all (no entities, no
records, no group, workspace never allocated, process record
untouched), and a first suffix violation produces the message naming the
offending filename and the comma-joined allowed suffix list. -/
theorem C5_run_preconditions (read : String → String) (now : Nat)
    (allowed : Option (List String)) (p : PipelineProcess)
    (work : Except PyExc (List PipelineOutput)) :
    (p.target = none →
      PipelineProcess.run read now allowed p work =
        { process := p,
          error := some (.asyncError "Process must have an associated target") }) ∧
    (∀ t, p.target = some t → p.input_files = [] →
      PipelineProcess.run read now allowed p work =
        { process := p, error := some (.asyncError "No input files to process") }) ∧
    (∀ t msg, p.target = some t → p.input_files.isEmpty = false →
      suffixGuard allowed p.input_files = some msg →
      PipelineProcess.run read now allowed p work =
        { process := p, error := some (.asyncError msg) }) ∧
    (∀ allowedList goodpre f rest,
      allowed = some allowedList → allowedList.isEmpty = false →
      p.input_files = goodpre ++ f :: rest →
      (∀ g ∈ goodpre,
        (allowedList.any fun s => s.data.isSuffixOf (baseName g.dataName).data) = true) →
      (allowedList.any fun s => s.data.isSuffixOf (baseName f.dataName).data) = false →
      suffixGuard allowed p.input_files =
        some ("Error running pipeline " ++
          ("File \x27" ++ baseName f.dataName ++
            "\x27 does not end an allowed filename suffix (" ++
            String.intercalate ", " allowedList ++ ")"))) := by
  refine ⟨?_, ?_, ?_, ?_⟩
  · intro h
    simp [PipelineProcess.run, h]
  · intro t ht hempty
    simp [PipelineProcess.run, ht, hempty]
  · intro t msg ht hne hsg
    simp [PipelineProcess.run, ht, hne, hsg]
  · intro allowedList goodpre f rest hal hne hfiles hgood hviol
    subst hal
    rw [hfiles]
    simp only [suffixGuard, hne, Bool.false_eq_true, if_false]
    exact checkSuffixes_first_violation allowedList f rest hviol goodpre hgood

/-- C5 (witness): concrete instance of the suffix-violation branch —
`allowed_suffixes=[".tar"]`, one input named `x.tar.gz`: `run` raises
`AsyncError` whose message names `x.tar.gz` and the allowed list, with
no side effects. -/
theorem C5_run_preconditions_witness :
    PipelineProcess.run (fun _ => "") 0 (some [".tar"])
        { identifier := "proc", target := some 1,
          input_files := [{ product_id := "x", dataName := "x.tar.gz" }] }
        (.ok []) =
      { process :=
          { identifier := "proc", target := some 1,
            input_files := [{ product_id := "x", dataName := "x.tar.gz" }] },
        error := some (.asyncError ("Error running pipeline " ++
          ("File \x27" ++ "x.tar.gz" ++
            "\x27 does not end an allowed filename suffix (" ++
            String.intercalate ", " [".tar"] ++ ")"))) } := by
  have h := C5_run_preconditions (fun _ => "") 0 (some [".tar"])
    { identifier := "proc", target := some 1,
      input_files := [{ product_id := "x", dataName := "x.tar.gz" }] }
    (.ok [])
  have hmsg := h.2.2.2 [".tar"] [] { product_id := "x", dataName := "x.tar.gz" } []
    rfl rfl rfl (by intro g hg; cases hg) (by decide)
  have hrun := h.2.2.1 1 _ rfl rfl hmsg
  simpa [baseName] using hrun

theorem isEntityOutput_iff (o : PipelineOutput) :
    isEntityOutput o = true ↔ o.output_type = OutputType.dataProduct := by
  cases h : o.output_type <;> simp [isEntityOutput, h]

/-- Reduction of a fully-successful `run` that created at least one data
product: the group is created, populated with every new data product,
and assigned to the process's `group` field before the final save. -/
theorem run_ok_with_entities (read : String → String) (now : Nat)
    (allowed : Option (List String)) (p : PipelineProcess) (t : Nat)
    (outs : List PipelineOutput)
    (ht : p.target = some t) (hi : p.input_files.isEmpty = false)
    (hs : suffixGuard allowed p.input_files = none)
    (hno : ∀ o ∈ outs, ∀ s, o.output_type ≠ OutputType.other s)
    (hne : outs.filter isEntityOutput ≠ []) :
    PipelineProcess.run read now allowed p (.ok outs) =
      { process := PipelineProcess.save now
          { p with group := some (p.identifier ++ "_outputs"),
                   status := ASYNC_STATUS_CREATED },
        newDataProducts :=
          (outs.filter isEntityOutput).map (materialiseEntity read p.identifier t),
        newReducedDatums :=
          (outs.filter isDatumOutput).map (materialiseDatum read now p.identifier t),
        newGroups :=
          [{ name := p.identifier ++ "_outputs",
             members := ((outs.filter isEntityOutput).map
               (materialiseEntity read p.identifier t)).map (fun dp => dp.product_id) }],
        wsAllocated := true, wsReleased := true } := by
  have hmap : ((outs.filter isEntityOutput).map
      (materialiseEntity read p.identifier t)).isEmpty = false := by
    simp [List.isEmpty_iff, hne]
  simp only [PipelineProcess.run, ht, hi, hs, Bool.false_eq_true, if_false,
    saveOutputs_no_other read now p.identifier t outs hno, hmap]

/-- Reduction of a fully-successful `run` that created no data products:
no group is created and the `group` field is untouched. -/
theorem run_ok_no_entities (read : String → String) (now : Nat)
    (allowed : Option (List String)) (p : PipelineProcess) (t : Nat)
    (outs : List PipelineOutput)
    (ht : p.target = some t) (hi : p.input_files.isEmpty = false)
    (hs : suffixGuard allowed p.input_files = none)
    (hno : ∀ o ∈ outs, ∀ s, o.output_type ≠ OutputType.other s)
    (he : outs.filter isEntityOutput = []) :
    PipelineProcess.run read now allowed p (.ok outs) =
      { process := PipelineProcess.save now { p with status := ASYNC_STATUS_CREATED },
        newDataProducts := [],
        newReducedDatums :=
          (outs.filter isDatumOutput).map (materialiseDatum read now p.identifier t),
        newGroups := [],
        wsAllocated := true, wsReleased := true } := by
  simp only [PipelineProcess.run, ht, hi, hs, Bool.false_eq_true, if_false,
    saveOutputs_no_other read now p.identifier t outs hno, he, List.map_nil,
    List.isEmpty_nil, if_true]

/-! ## C3: output materialisation -/

/-- C3: for a run whose work yields exactly two standalone-entity
descriptors and one measurement-record descriptor (and nothing
invalid), `run` succeeds and creates exactly 2 data products — each
owned by the target and named `<identifier>_<basename>` — exactly 1
time-series record, and exactly one group `<identifier>_outputs` whose
members are exactly the 2 new data products, assigned to the `group`
field; and for a work result with zero standalone-entity descriptors no
group is created and `group` stays `None`. -/
theorem C3_output_materialisation (read : String → String) (now : Nat)
    (allowed : Option (List String)) (p : PipelineProcess) (t : Nat)
    (outs : List PipelineOutput)
    (ht : p.target = some t) (hi : p.input_files.isEmpty = false)
    (hs : suffixGuard allowed p.input_files = none)
    (hg : p.group = none)
    (hno : ∀ o ∈ outs, ∀ s, o.output_type ≠ OutputType.other s) :
    ((outs.filter isEntityOutput).length = 2 →
      (outs.filter isDatumOutput).length = 1 →
      (PipelineProcess.run read now allowed p (.ok outs)).error = none ∧
      (PipelineProcess.run read now allowed p (.ok outs)).newDataProducts.length = 2 ∧
      (∀ dp ∈ (PipelineProcess.run read now allowed p (.ok outs)).newDataProducts,
        dp.target = some t ∧
        ∃ o ∈ outs, o.output_type = OutputType.dataProduct ∧
          dp.product_id = p.identifier ++ "_" ++ baseName o.path) ∧
      (PipelineProcess.run read now allowed p (.ok outs)).newReducedDatums.length = 1 ∧
      (PipelineProcess.run read now allowed p (.ok outs)).newGroups =
        [{ name := p.identifier ++ "_outputs",
           members := (PipelineProcess.run read now allowed p
             (.ok outs)).newDataProducts.map (fun dp => dp.product_id) }] ∧
      (PipelineProcess.run read now allowed p (.ok outs)).process.group =
        some (p.identifier ++ "_outputs")) ∧
    ((outs.filter isEntityOutput).length = 0 →
      (PipelineProcess.run read now allowed p (.ok outs)).newGroups = [] ∧
      (PipelineProcess.run read now allowed p (.ok outs)).process.group = none) := by
  constructor
  · intro h2 h1
    have hne : outs.filter isEntityOutput ≠ [] := by
      intro hnil
      rw [hnil] at h2
      simp at h2
    rw [run_ok_with_entities read now allowed p t outs ht hi hs hno hne]
    refine ⟨rfl, by simp [h2], ?_, by simp [h1], rfl, ?_⟩
    · intro dp hdp
      rw [List.mem_map] at hdp
      obtain ⟨o, ho, rfl⟩ := hdp
      rw [List.mem_filter] at ho
      refine ⟨rfl, o, ho.1, (isEntityOutput_iff o).mp ho.2, rfl⟩
    · rw [PipelineProcess.save_group]
  · intro h0
    have he : outs.filter isEntityOutput = [] := List.length_eq_zero.mp h0
    rw [run_ok_no_entities read now allowed p t outs ht hi hs hno he]
    exact ⟨rfl, by rw [PipelineProcess.save_group]; exact hg⟩

/-- C3 (witness): a concrete run with two entity descriptors and one
datum descriptor — 2 data products, 1 record, 1 group with exactly the
2 products. -/
theorem C3_output_materialisation_witness :
    ((PipelineProcess.run (fun _ => "bytes") 5 none
        { identifier := "proc", target := some 1,
          input_files := [{ product_id := "in", dataName := "in.fits" }], group := none }
        (.ok [{ path := "a.csv", output_type := OutputType.dataProduct },
              { path := "m.txt", output_type := OutputType.reducedDatum, tag := "photometry" },
              { path := "b.csv", output_type := OutputType.dataProduct }])).newDataProducts.length
      = 2) ∧
    ((PipelineProcess.run (fun _ => "bytes") 5 none
        { identifier := "proc", target := some 1,
          input_files := [{ product_id := "in", dataName := "in.fits" }], group := none }
        (.ok [{ path := "a.csv", output_type := OutputType.dataProduct },
              { path := "m.txt", output_type := OutputType.reducedDatum, tag := "photometry" },
              { path := "b.csv", output_type := OutputType.dataProduct }])).newReducedDatums.length
      = 1) := by
  have h := (C3_output_materialisation (fun _ => "bytes") 5 none
    { identifier := "proc", target := some 1,
      input_files := [{ product_id := "in", dataName := "in.fits" }], group := none } 1
    [{ path := "a.csv", output_type := OutputType.dataProduct },
     { path := "m.txt", output_type := OutputType.reducedDatum, tag := "photometry" },
     { path := "b.csv", output_type := OutputType.dataProduct }]
    rfl rfl rfl rfl
    (by intro o ho s; fin_cases ho <;> simp)).1 (by decide) (by decide)
  exact ⟨h.2.1, h.2.2.2.1⟩

/-! ## C4: invalid output type aborts without rollback -/

/-- C4: a descriptor whose `output_type` is neither kind makes the
output loop raise `AsyncError` naming the invalid type; descriptors
before it are already materialised and stay so, descriptors after it
are never processed, no group is created, and the process record is
untouched (status unchanged, the job wrapper will mark it failed). -/
theorem C4_invalid_output_aborts (read : String → String) (now : Nat)
    (allowed : Option (List String)) (p : PipelineProcess) (t : Nat)
    (pre : List PipelineOutput) (badO : PipelineOutput) (rest : List PipelineOutput)
    (tname : String)
    (ht : p.target = some t) (hi : p.input_files.isEmpty = false)
    (hs : suffixGuard allowed p.input_files = none)
    (hpre : ∀ o ∈ pre, ∀ s, o.output_type ≠ OutputType.other s)
    (hbad : badO.output_type = OutputType.other tname) :
    PipelineProcess.run read now allowed p (.ok (pre ++ badO :: rest)) =
      { process := p,
        newDataProducts :=
          (pre.filter isEntityOutput).map (materialiseEntity read p.identifier t),
        newReducedDatums :=
          (pre.filter isDatumOutput).map (materialiseDatum read now p.identifier t),
        newGroups := [],
        wsAllocated := true, wsReleased := true,
        error := some (.asyncError ("Invalid output type \x27" ++ tname ++ "\x27")) } := by
  simp only [PipelineProcess.run, ht, hi, hs, Bool.false_eq_true, if_false,
    saveOutputs_invalid read now p.identifier t badO rest tname hbad pre hpre]

/-- C4 (witness): concrete run where the second descriptor has the
invalid type `cheese` — the first descriptor's data product is kept,
the third descriptor is never materialised, and the error message names
the invalid type. -/
theorem C4_invalid_output_aborts_witness :
    ((PipelineProcess.run (fun _ => "bytes") 5 none
        { identifier := "proc", target := some 1,
          input_files := [{ product_id := "in", dataName := "in.fits" }] }
        (.ok [{ path := "a.csv", output_type := OutputType.dataProduct },
              { path := "bad", output_type := OutputType.other "cheese" },
              { path := "b.csv", output_type := OutputType.dataProduct }])).error =
      some (.asyncError "Invalid output type \x27cheese\x27")) ∧
    ((PipelineProcess.run (fun _ => "bytes") 5 none
        { identifier := "proc", target := some 1,
          input_files := [{ product_id := "in", dataName := "in.fits" }] }
        (.ok [{ path := "a.csv", output_type := OutputType.dataProduct },
              { path := "bad", output_type := OutputType.other "cheese" },
              { path := "b.csv", output_type := OutputType.dataProduct }])).newDataProducts.length
      = 1) := by
  have h := C4_invalid_output_aborts (fun _ => "bytes") 5 none
    { identifier := "proc", target := some 1,
      input_files := [{ product_id := "in", dataName := "in.fits" }] } 1
    [{ path := "a.csv", output_type := OutputType.dataProduct }]
    { path := "bad", output_type := OutputType.other "cheese" }
    [{ path := "b.csv", output_type := OutputType.dataProduct }] "cheese"
    rfl rfl rfl (by intro o ho s; fin_cases ho; simp) rfl
  simp only [List.singleton_append] at h
  rw [h]
  exact ⟨rfl, by decide⟩

/-! ## C2: the worker wrapper `run_process` -/

/-- A `run` that propagated no exception ended on the success path,
which sets the status to `created` and saves. -/
theorem run_error_none_status (read : String → String) (now : Nat)
    (allowed : Option (List String)) (p : PipelineProcess)
    (work : Except PyExc (List PipelineOutput))
    (h : (PipelineProcess.run read now allowed p work).error = none) :
    (PipelineProcess.run read now allowed p work).process.status =
      ASYNC_STATUS_CREATED := by
  cases hpt : p.target with
  | none => simp [PipelineProcess.run, hpt] at h
  | some t =>
    cases hie : p.input_files.isEmpty with
    | true => simp [PipelineProcess.run, hpt, hie] at h
    | false =>
      cases hsg : suffixGuard allowed p.input_files with
      | some m => simp [PipelineProcess.run, hpt, hie, hsg] at h
      | none =>
        cases work with
        | error e => simp [PipelineProcess.run, hpt, hie, hsg] at h
        | ok outs =>
          rcases hso : saveOutputs read now p.identifier t outs with ⟨dps, rds, err⟩
          cases err with
          | some e => simp [PipelineProcess.run, hpt, hie, hsg, hso] at h
          | none =>
            simp [PipelineProcess.run, hpt, hie, hsg, hso,
              PipelineProcess.save_status]

/-- C2: the worker wrapper never lets an exception escape.  If `run`
raised `AsyncError`, its exact message becomes `failure_message`; if it
raised anything else, the fixed generic message does; in both cases the
status becomes `failed` and the record is saved, and in every case
(success included) the wrapper leaves the process in a terminal state
(`created` or `failed`). -/
theorem C2_run_process_terminal (read : String → String) (now : Nat)
    (allowed : Option (List String)) (p : PipelineProcess)
    (work : Except PyExc (List PipelineOutput)) :
    (∀ msg, (PipelineProcess.run read now allowed p work).error =
        some (.asyncError msg) →
      (run_process now (PipelineProcess.run read now allowed p work)).failure_message
          = msg ∧
      (run_process now (PipelineProcess.run read now allowed p work)).status =
        ASYNC_STATUS_FAILED) ∧
    (∀ e, (PipelineProcess.run read now allowed p work).error = some e →
      (∀ msg, e ≠ .asyncError msg) →
      (run_process now (PipelineProcess.run read now allowed p work)).failure_message
          = "An unexpected error occurred" ∧
      (run_process now (PipelineProcess.run read now allowed p work)).status =
        ASYNC_STATUS_FAILED) ∧
    ((run_process now (PipelineProcess.run read now allowed p work)).status =
        ASYNC_STATUS_CREATED ∨
      (run_process now (PipelineProcess.run read now allowed p work)).status =
        ASYNC_STATUS_FAILED) := by
  refine ⟨?_, ?_, ?_⟩
  · intro msg h
    simp [run_process, h, PipelineProcess.save_status,
      PipelineProcess.save_failure_message]
  · intro e h hne
    cases e with
    | asyncError m => exact absurd rfl (hne m)
    | validationError m =>
      simp [run_process, h, PipelineProcess.save_status,
        PipelineProcess.save_failure_message]
    | assertionError m =>
      simp [run_process, h, PipelineProcess.save_status,
        PipelineProcess.save_failure_message]
    | valueError m =>
      simp [run_process, h, PipelineProcess.save_status,
        PipelineProcess.save_failure_message]
    | dateFieldNotFoundError m =>
      simp [run_process, h, PipelineProcess.save_status,
        PipelineProcess.save_failure_message]
    | otherExc m =>
      simp [run_process, h, PipelineProcess.save_status,
        PipelineProcess.save_failure_message]
  · cases herr : (PipelineProcess.run read now allowed p work).error with
    | none =>
      left
      simp [run_process, herr]
      exact run_error_none_status read now allowed p work herr
    | some e =>
      right
      cases e <;>
        simp [run_process, herr, PipelineProcess.save_status,
          PipelineProcess.save_failure_message]

/-- C2 (witness): for a process with no target, `run` raises the
`AsyncError` and the wrapper records its exact message and the `failed`
status. -/
theorem C2_run_process_terminal_witness :
    (run_process 0 (PipelineProcess.run (fun _ => "") 0 none
        { identifier := "p" } (.ok []))).failure_message =
      "Process must have an associated target" ∧
    (run_process 0 (PipelineProcess.run (fun _ => "") 0 none
        { identifier := "p" } (.ok []))).status = ASYNC_STATUS_FAILED := by
  exact (C2_run_process_terminal (fun _ => "") 0 none { identifier := "p" }
    (.ok [])).1 "Process must have an associated target" rfl

/-! ## C7: transient status writes persist immediately -/

/-- C7: between pending and a terminal state, the status may be set to
an arbitrary free-text label any number of times via `update_status`;
the write is saved to the store before the managed block's body starts
(so it is visible to external readers at the moment it is made), the
stored record carries exactly the requested label, and a non-terminal
label leaves `terminal_timestamp` untouched. -/
theorem C7_update_status_persists (now : Nat) (p : PipelineProcess)
    (status : String) (db : List PipelineProcess) :
    ((PipelineProcess.update_status now p status db).2 =
      db ++ [(PipelineProcess.update_status now p status db).1]) ∧
    ((PipelineProcess.update_status now p status db).1.status = status) ∧
    (status ∉ ASYNC_TERMINAL_STATES →
      (PipelineProcess.update_status now p status db).1.terminal_timestamp =
        p.terminal_timestamp) := by
  refine ⟨rfl, PipelineProcess.save_status now _, ?_⟩
  intro hn
  unfold PipelineProcess.update_status PipelineProcess.saveTo PipelineProcess.save
  rw [if_neg]
  intro hcond
  exact hn hcond.1

/-- C7 (witness): a concrete transient write — status `Finding stars`
is in the store immediately, with `terminal_timestamp` still unset. -/
theorem C7_update_status_persists_witness :
    ((PipelineProcess.update_status 4 { identifier := "p" } "Finding stars" []).1.status
      = "Finding stars") ∧
    ((PipelineProcess.update_status 4 { identifier := "p" } "Finding stars" []).1.terminal_timestamp
      = none) := by
  have h := C7_update_status_persists 4 { identifier := "p" } "Finding stars" []
  exact ⟨h.2.1, h.2.2 (by decide)⟩

/-! ## Timelapse model (`tom_education/models/timelapse.py`)

A FITS file is embedded as its filename plus the list of its HDU
headers (each a key/value list), per the spec's treatment of FITS
parsing as an external "read header field X" interface.  The ISO date
parser `datetime.fromisoformat` is likewise an external pure function,
passed in as `parse`; the claims only concern the ordering of the
parsed values. -/

def TIMELAPSE_GIF : String := "gif"

def TIMELAPSE_MP4 : String := "mp4"

def TIMELAPSE_WEBM : String := "webm"

def FITS_DATE_FIELD : String := "DATE-OBS"

structure Frame where
  name : String
  hdus : List (List (String × String))
deriving DecidableEq, Repr

/-- `hdu.header[field]` — `none` models the `KeyError` branch. -/
def headerGet (header : List (String × String)) (field : String) : Option String :=
  match header with
  | [] => none
  | (k, v) :: rest => if k = field then some v else headerGet rest field

/-- The `for hdu in fits.open(...)` loop of `sort_key`: the first HDU
whose header has the field supplies the date string. -/
def findDate (hdus : List (List (String × String))) (field : String) : Option String :=
  match hdus with
  | [] => none
  | hdu :: rest =>
    match headerGet hdu field with
    | some v => some v
    | none => findDate rest field

/-- `sort_key` (timelapse.py lines 153-163): parse the first `DATE-OBS`
value found in any HDU; raise `DateFieldNotFoundError` naming the file
if no HDU has it. -/
def sort_key (parse : String → Int) (product : Frame) : Except PyExc Int :=
  match findDate product.hdus FITS_DATE_FIELD with
  | some dt_str => .ok (parse dt_str)
  | none => .error (.dateFieldNotFoundError
      ("Error in file \x27" ++ product.name ++
        "\x27: could not find observation date in FITS header \x27" ++
        FITS_DATE_FIELD ++ "\x27"))

/-- The total sort key of a frame, defined on frames whose date is
present (`0` on the others; only used under that hypothesis). -/
def keyOf (parse : String → Int) (f : Frame) : Int :=
  match findDate f.hdus FITS_DATE_FIELD with
  | some s => parse s
  | none => 0

/-- The decorate pass of Python's `sorted(..., key=sort_key)`: the key
function is applied to every element in list order before any
comparison, so the first file lacking the date field raises. -/
def decorate (parse : String → Int) : List Frame → Except PyExc (List (Frame × Int))
  | [] => .ok []
  | f :: rest =>
    match sort_key parse f with
    | .error e => .error e
    | .ok k =>
      match decorate parse rest with
      | .error e => .error e
      | .ok tail => .ok ((f, k) :: tail)

/-- Comparison on decorated frames: ascending parsed timestamp. -/
def frameLE (a b : Frame × Int) : Prop := a.2 ≤ b.2

instance : DecidableRel frameLE := fun a b => Int.decLe a.2 b.2

instance : IsTotal (Frame × Int) frameLE := ⟨fun a b => Int.le_total a.2 b.2⟩

instance : IsTrans (Frame × Int) frameLE := ⟨fun _ _ _ h1 h2 => le_trans h1 h2⟩

/-- `sorted_frames` (timelapse.py lines 148-165): Python's `sorted` is
the unique stable ascending sort, embedded as insertion sort (stable
for the total preorder `frameLE`). -/
def sorted_frames (parse : String → Int) (frames : List Frame) :
    Except PyExc (List Frame) :=
  match decorate parse frames with
  | .error e => .error e
  | .ok keyed => .ok ((List.insertionSort frameLE keyed).map Prod.fst)

/-- `TimelapseDataProduct` (timelapse.py lines 32-45): format and fps
settings plus the frame set.  `fps` is embedded as `Int` (the claims
concern only its sign). -/
structure TimelapseDataProduct where
  product_id : String
  fmt : String := TIMELAPSE_GIF
  fps : Int := 10
  frames : List Frame := []
deriving DecidableEq, Repr

/-- `TimelapseDataProduct.clean` (timelapse.py lines 47-50): rejects a
non-positive fps with a Django `ValidationError`. -/
def TimelapseDataProduct.clean (tl : TimelapseDataProduct) : Except PyExc Unit :=
  if tl.fps ≤ 0 then .error (.validationError "FPS must be positive") else .ok ()

/-- `TimelapseDataProduct.save` (timelapse.py lines 55-60): `save` runs
`clean` first, so a non-positive fps can never be persisted; the
placeholder-data-file handling is external. -/
def TimelapseDataProduct.save (tl : TimelapseDataProduct) :
    Except PyExc TimelapseDataProduct :=
  match TimelapseDataProduct.clean tl with
  | .error e => .error e
  | .ok _ => .ok tl

/-- Outcome of `_write`: which frames were appended to the encoder (in
order), whether the scratch directory was allocated/released, and the
exception that escaped (if any). -/
structure TLWriteResult where
  processed : List Frame := []
  tmpAllocated : Bool := false
  tmpReleased : Bool := false
  error : Option PyExc := none
deriving DecidableEq, Repr

/-- `TimelapseDataProduct._write` (timelapse.py lines 78-146): inside a
`with tempfile.TemporaryDirectory()` block, iterate over
`sorted_frames()` appending each frame to the encoder.  The imageio
writer, the per-frame transforms and the FITS→JPG conversion are
external; the embedded behaviour is the frame order, the error from a
missing date, and the scratch-directory lifecycle (released on every
exit path of the `with` block).  Note no fps validation happens here:
`fps` is passed straight to the external writer. -/
def TimelapseDataProduct._write (parse : String → Int) (tl : TimelapseDataProduct) :
    TLWriteResult :=
  match sorted_frames parse tl.frames with
  | .error e => { tmpAllocated := true, tmpReleased := true, error := some e }
  | .ok sorted => { processed := sorted, tmpAllocated := true, tmpReleased := true }

/-- The suffix check of `TimelapseDataProduct.write` (timelapse.py
lines 70-71): every frame must look like FITS data. -/
def checkFramesSuffixes : List Frame → Option String
  | [] => none
  | f :: rest =>
    match assert_valid_suffix (baseName f.name) [".fits", ".fz"] with
    | .error (.assertionError msg) => some msg
    | _ => checkFramesSuffixes rest

/-- `TimelapseDataProduct.write` (timelapse.py lines 62-76): empty frame
set raises `ValueError`, a non-FITS filename raises `AssertionError`,
otherwise `_write` runs. -/
def TimelapseDataProduct.write (parse : String → Int) (tl : TimelapseDataProduct) :
    TLWriteResult :=
  if tl.frames.isEmpty then
    { error := some (.valueError "Empty data products list") }
  else
    match checkFramesSuffixes tl.frames with
    | some msg => { error := some (.assertionError msg) }
    | none => TimelapseDataProduct._write parse tl

/-- `TimelapseProcess` (timelapse.py lines 198-203). -/
structure TimelapseProcess where
  identifier : String
  status : String := ASYNC_STATUS_PENDING
  terminal_timestamp : Option Nat := none
  failure_message : String := ""
  target : Option Nat := none
  timelapse_product : TimelapseDataProduct
deriving DecidableEq, Repr

/-- Modelled from the spec: like `PipelineProcess.save`, the
`AsyncProcess` persistence inherited by `TimelapseProcess` lives in the
absent `models/async_process.py`; spec §4.2 semantics. -/
def TimelapseProcess.save (now : Nat) (p : TimelapseProcess) : TimelapseProcess :=
  if p.status ∈ ASYNC_TERMINAL_STATES ∧ p.terminal_timestamp = none then
    { p with terminal_timestamp := some now }
  else p

structure TLRunResult where
  process : TimelapseProcess
  writeResult : TLWriteResult
  error : Option PyExc := none
deriving DecidableEq, Repr

/-- `TimelapseProcess.run` (timelapse.py lines 205-216): call `write()`,
re-raise `DateFieldNotFoundError` and `AssertionError` as `AsyncError`
with the same message, replace `ValueError` with the fixed message, and
on success set the status to `created` and save. -/
def TimelapseProcess.run (parse : String → Int) (now : Nat)
    (proc : TimelapseProcess) : TLRunResult :=
  let w := TimelapseDataProduct.write parse proc.timelapse_product
  match w.error with
  | some (.dateFieldNotFoundError msg) =>
    { process := proc, writeResult := w, error := some (.asyncError msg) }
  | some (.assertionError msg) =>
    { process := proc, writeResult := w, error := some (.asyncError msg) }
  | some (.valueError _) =>
    { process := proc, writeResult := w,
      error := some (.asyncError "Invalid parameters. Are all images the same size?") }
  | some e => { process := proc, writeResult := w, error := some e }
  | none =>
    { process := TimelapseProcess.save now { proc with status := ASYNC_STATUS_CREATED },
      writeResult := w }

/-! ## Sorting lemmas for C6 -/

theorem sort_key_ok (parse : String → Int) (f : Frame) (k : Int)
    (h : sort_key parse f = .ok k) : keyOf parse f = k := by
  cases hf : findDate f.hdus FITS_DATE_FIELD with
  | none => simp [sort_key, hf] at h
  | some s =>
    simp [sort_key, hf] at h
    simp [keyOf, hf, h]

theorem decorate_ok_eq (parse : String → Int) :
    ∀ frames keyed, decorate parse frames = .ok keyed →
    keyed = frames.map (fun f => (f, keyOf parse f))
  | [], keyed, h => by
    simp [decorate] at h
    simp [← h]
  | f :: rest, keyed, h => by
    cases hk : sort_key parse f with
    | error e => simp [decorate, hk] at h
    | ok k =>
      cases hd : decorate parse rest with
      | error e => simp [decorate, hk, hd] at h
      | ok tail =>
        have ih := decorate_ok_eq parse rest tail hd
        simp [decorate, hk, hd] at h
        simp [← h, ih, sort_key_ok parse f k hk]

/-- Filtering on one key value commutes with `orderedInsert`: the
inserted element lands in front of exactly the equal-key elements (the
skipped prefix has strictly smaller keys). -/
theorem filter_orderedInsert_key (k : Int) (a : Frame × Int) :
    ∀ s : List (Frame × Int),
    (List.orderedInsert frameLE a s).filter (fun x => decide (x.2 = k)) =
      if a.2 = k then a :: s.filter (fun x => decide (x.2 = k))
      else s.filter (fun x => decide (x.2 = k))
  | [] => by
    by_cases hak : a.2 = k <;> simp [List.orderedInsert, hak]
  | b :: l => by
    by_cases hab : frameLE a b
    · by_cases hak : a.2 = k <;>
        simp [List.orderedInsert, if_pos hab, hak, List.filter_cons]
    · have ih := filter_orderedInsert_key k a l
      by_cases hak : a.2 = k
      · have hbk : ¬ b.2 = k := by
          intro e
          exact hab (by unfold frameLE; rw [hak, e])
        simp [List.orderedInsert, if_neg hab, List.filter_cons, hbk, ih, hak]
      · by_cases hbk : b.2 = k <;>
          simp [List.orderedInsert, if_neg hab, List.filter_cons, hbk, ih, hak]

/-- Stability of the embedded sort: for every key value, the sublist of
elements carrying that key is unchanged — ties keep their original
order. -/
theorem filter_insertionSort_key (k : Int) :
    ∀ l : List (Frame × Int),
    (List.insertionSort frameLE l).filter (fun x => decide (x.2 = k)) =
      l.filter (fun x => decide (x.2 = k))
  | [] => rfl
  | a :: l => by
    have ih := filter_insertionSort_key k l
    by_cases hak : a.2 = k <;>
      simp [List.insertionSort,
        filter_orderedInsert_key k a (List.insertionSort frameLE l), hak,
        List.filter_cons, ih]

theorem decorate_first_missing (parse : String → Int) (f : Frame)
    (rest : List Frame) (hf : findDate f.hdus FITS_DATE_FIELD = none) :
    ∀ pre : List Frame, (∀ g ∈ pre, findDate g.hdus FITS_DATE_FIELD ≠ none) →
    decorate parse (pre ++ f :: rest) = .error (.dateFieldNotFoundError
      ("Error in file \x27" ++ f.name ++
        "\x27: could not find observation date in FITS header \x27" ++
        FITS_DATE_FIELD ++ "\x27"))
  | [], _ => by
    simp only [List.nil_append, decorate, sort_key, hf]
  | g :: pre, h => by
    have hg := h g (List.mem_cons_self _ _)
    have ih := decorate_first_missing parse f rest hf pre
      (fun x hx => h x (List.mem_cons_of_mem _ hx))
    cases hgd : findDate g.hdus FITS_DATE_FIELD with
    | none => exact absurd hgd hg
    | some s =>
      simp only [List.cons_append, decorate, sort_key, hgd, List.append_eq, ih]

theorem filter_key_map_fst (parse : String → Int) (k : Int) :
    ∀ L : List (Frame × Int), (∀ x ∈ L, x.2 = keyOf parse x.1) →
    (L.map Prod.fst).filter (fun f => decide (keyOf parse f = k)) =
      (L.filter (fun x => decide (x.2 = k))).map Prod.fst
  | [], _ => rfl
  | x :: L, h => by
    have ih := filter_key_map_fst parse k L
      (fun y hy => h y (List.mem_cons_of_mem _ hy))
    have hx := h x (List.mem_cons_self _ _)
    by_cases hxk : x.2 = k
    · simp [List.filter_cons, ih, ← hx, hxk]
    · simp [List.filter_cons, ih, ← hx, hxk]

theorem sorted_frames_ok_spec (parse : String → Int) (frames : List Frame)
    (r : List Frame) (h : sorted_frames parse frames = .ok r) :
    List.Pairwise (fun a b => keyOf parse a ≤ keyOf parse b) r ∧
    ∀ k : Int, r.filter (fun f => decide (keyOf parse f = k)) =
      frames.filter (fun f => decide (keyOf parse f = k)) := by
  cases hd : decorate parse frames with
  | error e => simp [sorted_frames, hd] at h
  | ok keyed =>
    have hkeyed := decorate_ok_eq parse frames keyed hd
    simp only [sorted_frames, hd, Except.ok.injEq] at h
    subst h
    have hmem : ∀ x ∈ List.insertionSort frameLE keyed, x.2 = keyOf parse x.1 := by
      intro x hx
      have hx2 : x ∈ keyed := (List.mem_insertionSort frameLE).1 hx
      rw [hkeyed] at hx2
      obtain ⟨f, _, rfl⟩ := List.mem_map.1 hx2
      rfl
    have hmemk : ∀ x ∈ keyed, x.2 = keyOf parse x.1 := by
      intro x hx
      rw [hkeyed] at hx
      obtain ⟨f, _, rfl⟩ := List.mem_map.1 hx
      rfl
    have hfst : keyed.map Prod.fst = frames := by
      rw [hkeyed, List.map_map]
      show frames.map id = frames
      exact List.map_id frames
    constructor
    · have hsorted := List.sorted_insertionSort frameLE keyed
      rw [List.pairwise_map]
      exact hsorted.imp_of_mem (fun {a b} ha hb hr => by
        have h1 := hmem a ha
        have h2 := hmem b hb
        rw [← h1, ← h2]
        exact hr)
    · intro k
      rw [filter_key_map_fst parse k _ hmem, filter_insertionSort_key k keyed,
        ← filter_key_map_fst parse k keyed hmemk, hfst]

/-! ## C6: frame ordering -/

/-- C6: `sorted_frames` orders the frames ascending by the timestamp
parsed from the first `DATE-OBS` field found in any HDU of each file,
breaking ties by original iteration order (for every key value the
sublist of frames carrying it is unchanged — a stable sort); if some
file has no `DATE-OBS` anywhere, the sort raises
`DateFieldNotFoundError` naming the first such file, and
`TimelapseProcess.run` re-raises it as `AsyncError` (the spec's
`ProcessError`) with the same message. -/
theorem C6_frame_ordering (parse : String → Int) (frames : List Frame) :
    (∀ r, sorted_frames parse frames = .ok r →
      List.Pairwise (fun a b => keyOf parse a ≤ keyOf parse b) r ∧
      ∀ k : Int, r.filter (fun f => decide (keyOf parse f = k)) =
        frames.filter (fun f => decide (keyOf parse f = k))) ∧
    (∀ pre f rest, frames = pre ++ f :: rest →
      (∀ g ∈ pre, findDate g.hdus FITS_DATE_FIELD ≠ none) →
      findDate f.hdus FITS_DATE_FIELD = none →
      sorted_frames parse frames = .error (.dateFieldNotFoundError
        ("Error in file \x27" ++ f.name ++
          "\x27: could not find observation date in FITS header \x27" ++
          FITS_DATE_FIELD ++ "\x27"))) ∧
    (∀ now (proc : TimelapseProcess) msg,
      proc.timelapse_product.frames = frames →
      frames.isEmpty = false →
      checkFramesSuffixes frames = none →
      sorted_frames parse frames = .error (.dateFieldNotFoundError msg) →
      (TimelapseProcess.run parse now proc).error = some (.asyncError msg)) := by
  refine ⟨fun r h => sorted_frames_ok_spec parse frames r h, ?_, ?_⟩
  · intro pre f rest hfr hpre hf
    rw [hfr]
    simp [sorted_frames, decorate_first_missing parse f rest hf pre hpre]
  · intro now proc msg hpf hne hsuf hsort
    have hw : TimelapseDataProduct.write parse proc.timelapse_product =
        { tmpAllocated := true, tmpReleased := true,
          error := some (.dateFieldNotFoundError msg) } := by
      simp [TimelapseDataProduct.write, hpf, hne, hsuf,
        TimelapseDataProduct._write, hsort]
    simp [TimelapseProcess.run, hw]

/-- C6 (witness): the spec's P5 scenario — disk order `[T0, T1, T3,
T2]` with `T0<T1<T2<T3` comes out `[T0, T1, T2, T3]`, and the result is
sorted by parsed key. -/
theorem C6_frame_ordering_witness :
    sorted_frames
        (fun s => if s = "T0" then 0 else if s = "T1" then 1 else
          if s = "T2" then 2 else 3)
        [{ name := "f0.fits", hdus := [[("DATE-OBS", "T0")]] },
         { name := "f1.fits", hdus := [[("DATE-OBS", "T1")]] },
         { name := "f3.fits", hdus := [[("DATE-OBS", "T3")]] },
         { name := "f2.fits", hdus := [[("DATE-OBS", "T2")]] }] =
      .ok [{ name := "f0.fits", hdus := [[("DATE-OBS", "T0")]] },
           { name := "f1.fits", hdus := [[("DATE-OBS", "T1")]] },
           { name := "f2.fits", hdus := [[("DATE-OBS", "T2")]] },
           { name := "f3.fits", hdus := [[("DATE-OBS", "T3")]] }] ∧
    List.Pairwise
      (fun a b =>
        keyOf (fun s => if s = "T0" then 0 else if s = "T1" then 1 else
          if s = "T2" then 2 else 3) a ≤
        keyOf (fun s => if s = "T0" then 0 else if s = "T1" then 1 else
          if s = "T2" then 2 else 3) b)
      [{ name := "f0.fits", hdus := [[("DATE-OBS", "T0")]] },
       { name := "f1.fits", hdus := [[("DATE-OBS", "T1")]] },
       { name := "f2.fits", hdus := [[("DATE-OBS", "T2")]] },
       { name := "f3.fits", hdus := [[("DATE-OBS", "T3")]] }] := by
  refine ⟨rfl, ?_⟩
  exact ((C6_frame_ordering
    (fun s => if s = "T0" then 0 else if s = "T1" then 1 else
      if s = "T2" then 2 else 3)
    [{ name := "f0.fits", hdus := [[("DATE-OBS", "T0")]] },
     { name := "f1.fits", hdus := [[("DATE-OBS", "T1")]] },
     { name := "f3.fits", hdus := [[("DATE-OBS", "T3")]] },
     { name := "f2.fits", hdus := [[("DATE-OBS", "T2")]] }]).1
    [{ name := "f0.fits", hdus := [[("DATE-OBS", "T0")]] },
     { name := "f1.fits", hdus := [[("DATE-OBS", "T1")]] },
     { name := "f2.fits", hdus := [[("DATE-OBS", "T2")]] },
     { name := "f3.fits", hdus := [[("DATE-OBS", "T3")]] }] rfl).1

/-! ## C8: fps validation -/

/-- C8 (counterexample): the claim says every `fps ≤ 0` makes the
timelapse run raise `ProcessError` before any frame is processed.  On
the code this is false: `run`/`write`/`_write` never inspect `fps` (it
is passed straight to the external encoder), so a run over a product
with `fps = 0` and one valid frame completes with no exception and one
processed frame. -/
theorem C8_counterexample :
    (TimelapseProcess.run (fun _ => 0) 9
        { identifier := "p",
          timelapse_product :=
            { product_id := "tl", fps := 0,
              frames := [{ name := "a.fits", hdus := [[("DATE-OBS", "T")]] }] } }).error
      = none ∧
    (TimelapseProcess.run (fun _ => 0) 9
        { identifier := "p",
          timelapse_product :=
            { product_id := "tl", fps := 0,
              frames := [{ name := "a.fits", hdus := [[("DATE-OBS", "T")]] }] } }).writeResult.processed.length
      = 1 ∧
    ((0 : Int) ≤ 0) := by
  exact ⟨rfl, rfl, le_refl 0⟩

/-- C8 (amended): the non-positive-fps check lives in
`TimelapseDataProduct.clean`, which `save` always invokes: for every
`fps ≤ 0` it raises a Django `ValidationError` with message
`FPS must be positive` at save/creation time — before any frame could
ever be processed — so no such product can be persisted; `run` itself
performs no fps validation and raises no `ProcessError` for it. -/
theorem C8_amended (tl : TimelapseDataProduct) (h : tl.fps ≤ 0) :
    TimelapseDataProduct.clean tl =
      .error (.validationError "FPS must be positive") ∧
    TimelapseDataProduct.save tl =
      .error (.validationError "FPS must be positive") := by
  have hc : TimelapseDataProduct.clean tl =
      .error (.validationError "FPS must be positive") := by
    simp [TimelapseDataProduct.clean, h]
  exact ⟨hc, by simp [TimelapseDataProduct.save, hc]⟩

/-- C8 (witness): the amended theorem at `fps = 0` and `fps = -1`. -/
theorem C8_amended_witness :
    TimelapseDataProduct.clean { product_id := "t", fps := 0 } =
      .error (.validationError "FPS must be positive") ∧
    TimelapseDataProduct.save { product_id := "t", fps := -1 } =
      .error (.validationError "FPS must be positive") := by
  exact ⟨(C8_amended { product_id := "t", fps := 0 } (by decide)).1,
    (C8_amended { product_id := "t", fps := -1 } (by decide)).2⟩

/-! ## C9: workspace cleanup on every exit path -/

/-- C9: the temporary directories are scoped resources: for every input
— normal completion, a `ProcessError` from validation or the work
method, or any other exception — the pipeline workspace and the
timelapse scratch directory are released exactly when they were
allocated, so no run ever ends with a live scratch directory.  (For
validation errors the workspace is never allocated at all.) -/
theorem C9_workspace_cleanup (read : String → String) (now : Nat)
    (allowed : Option (List String)) (p : PipelineProcess)
    (work : Except PyExc (List PipelineOutput))
    (parse : String → Int) (tl : TimelapseDataProduct) :
    ((PipelineProcess.run read now allowed p work).wsReleased =
      (PipelineProcess.run read now allowed p work).wsAllocated) ∧
    ((TimelapseDataProduct._write parse tl).tmpReleased =
      (TimelapseDataProduct._write parse tl).tmpAllocated) ∧
    ((TimelapseDataProduct.write parse tl).tmpReleased =
      (TimelapseDataProduct.write parse tl).tmpAllocated) := by
  refine ⟨?_, ?_, ?_⟩
  · unfold PipelineProcess.run
    split
    · rfl
    · split
      · rfl
      · split
        · rfl
        · split
          · rfl
          · split
            · rfl
            · rfl
  · unfold TimelapseDataProduct._write
    split <;> rfl
  · unfold TimelapseDataProduct.write
    split
    · rfl
    · split
      · rfl
      · unfold TimelapseDataProduct._write
        split <;> rfl

/-! ## C10: flags schema validation (`validate_flags`)

A Python value reaching `validate_flags` is embedded as either a dict
(association list) or any other value. -/

inductive PyVal where
  | pyDict (entries : List (String × PyVal))
  | pyOther (desc : String)

/-- Python's `\s` on the ASCII range (`re` without `re.UNICODE`
subtleties; the claims only involve space, tab and newline). -/
def pyIsSpace (c : Char) : Bool :=
  c == ' ' || c == '\t' || c == '\n' || c == '\r' || c == '\x0b' || c == '\x0c'

/-- `re.match(r'[^\s]+$', name) is not None`.  Python's `$` matches at
the end of the string or just before one trailing newline, so a name
consisting of non-whitespace characters followed by a single final
`'\n'` also matches. -/
def reMatchesKey (name : String) : Bool :=
  let cs := name.data
  let body := if cs.getLast? = some '\n' then cs.dropLast else cs
  !body.isEmpty && body.all (fun c => !pyIsSpace c)

/-- The per-entry loop of `validate_flags` (pipelines.py lines
160-164); Python's bare `assert` carries an empty message. -/
def validateFlagEntries : List (String × PyVal) → Except PyExc Unit
  | [] => .ok ()
  | (name, info) :: rest =>
    if !reMatchesKey name then .error (.assertionError "")
    else
      match info with
      | .pyOther _ => .error (.assertionError "")
      | .pyDict infoEntries =>
        if !(infoEntries.map Prod.fst).contains "default" then
          .error (.assertionError "")
        else if !(infoEntries.map Prod.fst).contains "long_name" then
          .error (.assertionError "")
        else validateFlagEntries rest

/-- `validate_flags` (pipelines.py lines 149-164): `None` is valid;
otherwise the value must be a dict whose every key matches the
whitespace regex and whose every value is a dict containing `default`
and `long_name`. -/
def validate_flags (flags : Option PyVal) : Except PyExc Unit :=
  match flags with
  | none => .ok ()
  | some (.pyDict entries) => validateFlagEntries entries
  | some (.pyOther _) => .error (.assertionError "")

/-- C10: evaluation at the failing input.  The claim (and the code's
own comment) says every key containing whitespace is rejected, but the
key `"x\n"` contains the whitespace character `'\n'` and is accepted:
Python's `$` in `re.match(r'[^\s]+$', name)` matches just before a
single trailing newline. -/
theorem C10_trailing_newline_key_accepted :
    validate_flags (some (.pyDict
      [("x\n", .pyDict [("default", .pyOther "False"),
                        ("long_name", .pyOther "X")])])) = .ok () ∧
    "x\n".data.any pyIsSpace = true := by
  exact ⟨rfl, rfl⟩
